import Mathlib

/-!
Verification of the Zayion real-time presence / room-broadcast core.

Shallow embedding of `src/websocket_handler.py` (class `WebSocketManager`),
`src/location_service.py` (class `LocationService`) and `src/models.py`
(geo math helpers).  Dictionaries whose keys are only ever looked up,
inserted or deleted are modelled as total functions into `Option`;
dictionaries that the code iterates over (`room_memberships`) are modelled
as association lists.  Python `set` values are modelled as duplicate-free
lists (set `add` is insert-if-absent, set `discard` removes the element).
Real-valued geodesic distances computed by the external `geopy` library
are passed in as an explicit distance-function parameter; the repository's
own haversine implementation (`models.py`) is embedded over `ℝ`.
-/

namespace Zayion

/-- Outbound protocol events (`type` field of the JSON payloads built by
`WebSocketManager`); payload details that no claim mentions are elided to
the identifying ids. -/
inductive OutMsg where
  | error (text : String)
  | room_joined (room_id : ℕ)
  | user_joined (user_id room_id : ℕ)
  | user_left (user_id room_id : ℕ)
  | room_users_update (room_id : ℕ)
  | new_message (room_id user_id : ℕ)
  | friend_nearby (friend_id : ℕ)
  | pong
  deriving DecidableEq, Repr

/-- A successful transmission on a websocket: (user id, socket id, message).
`WebSocketManager._send_to_user` performs `websocket.send_text`; a delivery
is recorded exactly when that call does not raise. -/
abbrev Delivery := ℕ × ℕ × OutMsg

/-- Row of the `rooms` table (the fields `_handle_join_room` and
`is_location_within_room_boundary` read). -/
structure Room where
  id : ℕ
  is_active : Bool
  max_users : ℕ
  latitude : ℚ
  longitude : ℚ
  boundary_radius : ℚ
  deriving DecidableEq, Repr

/-- Row of the `room_memberships` table (fields the handlers read/write). -/
structure Membership where
  room_id : ℕ
  user_id : ℕ
  is_active : Bool
  deriving DecidableEq, Repr

/-- The slice of the SQL database the websocket handlers touch. -/
structure DB where
  rooms : List Room
  memberships : List Membership
  deriving Repr

/-- In-memory state of `WebSocketManager`.
`active_connections : user_id -> websocket`, `room_memberships :
room_id -> set of user_ids`, `user_locations : user_id -> location`.
`closed_sockets` is ghost state recording every socket the manager has
asked the transport to close (the manager never issues such a call). -/
structure WSState where
  active_connections : ℕ → Option ℕ
  room_memberships : List (ℕ × List ℕ)
  user_locations : ℕ → Option (ℚ × ℚ)
  closed_sockets : List ℕ

/-- Fresh manager (`WebSocketManager.__init__`). -/
def init_ws : WSState :=
  { active_connections := fun _ => none
    room_memberships := []
    user_locations := fun _ => none
    closed_sockets := [] }

/-- Empty database. -/
def init_db : DB := { rooms := [], memberships := [] }

/-- Dictionary lookup on an association list (first entry wins, as in a
Python dict with unique keys). -/
def dlookup (r : ℕ) : List (ℕ × α) → Option α
  | [] => none
  | p :: ps => if p.1 = r then some p.2 else dlookup r ps

/-- Occupant set of a room: `self.room_memberships.get(room_id, set())`. -/
def membersOf (ms : List (ℕ × List ℕ)) (rid : ℕ) : List ℕ :=
  (dlookup rid ms).getD []

/-- `WebSocketManager._join_room` lines 361-363: create the entry if the
room id is absent, then `set.add(user_id)`. -/
def mem_add (ms : List (ℕ × List ℕ)) (rid uid : ℕ) : List (ℕ × List ℕ) :=
  match dlookup rid ms with
  | some _ =>
      ms.map (fun p => if p.1 = rid then (p.1, if uid ∈ p.2 then p.2 else p.2 ++ [uid]) else p)
  | none => ms ++ [(rid, [uid])]

/-- `WebSocketManager._leave_room` lines 411-416: `set.discard(user_id)`,
then delete the room key if its set became empty. -/
def mem_remove (ms : List (ℕ × List ℕ)) (rid uid : ℕ) : List (ℕ × List ℕ) :=
  match dlookup rid ms with
  | some _ =>
      (ms.map fun p => if p.1 = rid then (p.1, p.2.filter (fun v => v ≠ uid)) else p).filter
        (fun p => p.1 ≠ rid ∨ p.2 ≠ [])
  | none => ms

/-- `WebSocketManager.disconnect` lines 66-68: iterate over a snapshot of
the room keys and leave each room containing the user. -/
def mem_disconnect (ms : List (ℕ × List ℕ)) (uid : ℕ) : List (ℕ × List ℕ) :=
  (ms.map Prod.fst).foldl
    (fun acc rid => if uid ∈ membersOf acc rid then mem_remove acc rid uid else acc) ms

/-- `WebSocketManager.get_user_rooms` lines 622-628. -/
def get_user_rooms (ms : List (ℕ × List ℕ)) (uid : ℕ) : List ℕ :=
  (ms.filter fun p => decide (uid ∈ p.2)).map Prod.fst

/-- `WebSocketManager.is_user_online` lines 618-620. -/
def is_user_online (st : WSState) (uid : ℕ) : Bool :=
  (st.active_connections uid).isSome

/-- `WebSocketManager._send_to_user` lines 582-593: send if connected; on a
transport error the broken connection is deleted and the exception is
swallowed.  `fails sock = true` means `websocket.send_text` raises. -/
def send_to_user (fails : ℕ → Bool) (st : WSState) (uid : ℕ) (msg : OutMsg) :
    WSState × List Delivery :=
  match st.active_connections uid with
  | none => (st, [])
  | some sock =>
      if fails sock then
        ({ st with active_connections := fun v => if v = uid then none else st.active_connections v },
         [])
      else (st, [(uid, sock, msg)])

/-- Sequentially send one message to each user of a list
(the loop body of `_broadcast_to_room` lines 576-577). -/
def send_list (fails : ℕ → Bool) (st : WSState) (targets : List ℕ) (msg : OutMsg) :
    WSState × List Delivery :=
  match targets with
  | [] => (st, [])
  | t :: ts =>
      let r1 := send_to_user fails st t msg
      let r2 := send_list fails r1.1 ts msg
      (r2.1, r1.2 ++ r2.2)

/-- `WebSocketManager._broadcast_to_room` lines 565-580.  Note the Python
truthiness test `if exclude_user:`: an exclude id of `0` excludes nobody. -/
def broadcast_to_room (fails : ℕ → Bool) (st : WSState) (rid : ℕ) (msg : OutMsg)
    (exclude : Option ℕ) : WSState × List Delivery :=
  match dlookup rid st.room_memberships with
  | none => (st, [])
  | some members =>
      let targets :=
        match exclude with
        | some e => if e ≠ 0 then members.filter (fun v => v ≠ e) else members
        | none => members
      send_list fails st targets msg

/-- `db.query(Room).filter(Room.id == rid, Room.is_active == True).first()`. -/
def db_get_active_room (db : DB) (rid : ℕ) : Option Room :=
  db.rooms.find? fun rm => rm.id == rid && rm.is_active

/-- `db.query(Room).filter(Room.id == rid).first()` (no activity filter,
as in `_join_room` line 366). -/
def db_get_room (db : DB) (rid : ℕ) : Option Room :=
  db.rooms.find? fun rm => rm.id == rid

/-- `db.query(RoomMembership).filter(room_id, is_active).count()`. -/
def db_active_member_count (db : DB) (rid : ℕ) : ℕ :=
  (db.memberships.filter fun m => m.room_id == rid && m.is_active).length

/-- `db.query(RoomMembership).filter(room_id, user_id, is_active).first()`. -/
def db_find_active_membership (db : DB) (rid uid : ℕ) : Option Membership :=
  db.memberships.find? fun m => m.room_id == rid && m.user_id == uid && m.is_active

/-- Deactivate the first active membership row matching (room, user), as
`_leave_room` lines 421-432 (`first()` then `is_active = False`). -/
def deactivate_first : List Membership → ℕ → ℕ → List Membership
  | [], _, _ => []
  | m :: rest, rid, uid =>
      if m.room_id = rid ∧ m.user_id = uid ∧ m.is_active then
        { m with is_active := false } :: rest
      else m :: deactivate_first rest rid uid

/-- `WebSocketManager._join_room` lines 357-401: mutate the in-memory index,
bail out if the room row is missing, otherwise send the room snapshot to
the joiner, `user_joined` to the others, and a member-list refresh to all. -/
def join_room (fails : ℕ → Bool) (db : DB) (st : WSState) (uid rid : ℕ) :
    WSState × List Delivery :=
  let st1 := { st with room_memberships := mem_add st.room_memberships rid uid }
  match db_get_room db rid with
  | none => (st1, [])
  | some _ =>
      let r1 := send_to_user fails st1 uid (.room_joined rid)
      let r2 := broadcast_to_room fails r1.1 rid (.user_joined uid rid) (some uid)
      let r3 := broadcast_to_room fails r2.1 rid (.room_users_update rid) none
      (r3.1, r1.2 ++ r2.2 ++ r3.2)

/-- `WebSocketManager._leave_room` lines 407-454. -/
def leave_room (fails : ℕ → Bool) (db : DB) (st : WSState) (uid rid : ℕ) :
    DB × WSState × List Delivery :=
  let st1 := { st with room_memberships := mem_remove st.room_memberships rid uid }
  let db1 := { db with memberships := deactivate_first db.memberships rid uid }
  let r1 := broadcast_to_room fails st1 rid (.user_left uid rid) (some uid)
  let r2 := broadcast_to_room fails r1.1 rid (.room_users_update rid) none
  (db1, r2.1, r1.2 ++ r2.2)

/-- `WebSocketManager._handle_join_room` lines 147-230.  The admission
checks (room id supplied, room exists and active, occupant count below
capacity, boundary containment) each return an error event without any
mutation; only then is a membership row created (unless one already
exists) and `_join_room` performed.  `within` stands for the call to
`is_location_within_room_boundary` (whose real-valued haversine form is
embedded separately below).  Python truthiness: `if not room_id` treats
the id `0` as missing. -/
def handle_join_room (within : ℚ × ℚ → Room → Bool) (fails : ℕ → Bool)
    (db : DB) (st : WSState) (uid : ℕ) (roomId : Option ℕ)
    (location : Option (ℚ × ℚ)) : DB × WSState × List Delivery :=
  match roomId with
  | none =>
      let r := send_to_user fails st uid (.error "Room ID required")
      (db, r.1, r.2)
  | some rid =>
      if rid = 0 then
        let r := send_to_user fails st uid (.error "Room ID required")
        (db, r.1, r.2)
      else
        match db_get_active_room db rid with
        | none =>
            let r := send_to_user fails st uid (.error "Room not found")
            (db, r.1, r.2)
        | some room =>
            if room.max_users ≤ db_active_member_count db rid then
              let r := send_to_user fails st uid (.error "Room is at maximum capacity")
              (db, r.1, r.2)
            else if location.any (fun loc => !within loc room) then
              let r := send_to_user fails st uid (.error "Outside room boundaries")
              (db, r.1, r.2)
            else
              let db1 :=
                if (db_find_active_membership db rid uid).isSome then db
                else { db with memberships := db.memberships ++ [⟨rid, uid, true⟩] }
              let r := join_room fails db1 st uid rid
              (db1, r.1, r.2)

/-- Accumulating state for the loops in `disconnect` / `connect`. -/
abbrev HandlerAcc := DB × WSState × List Delivery

/-- One iteration of the room loop of `disconnect` lines 66-68: leave the
room if the user currently occupies it. -/
def disconnect_step (fails : ℕ → Bool) (uid : ℕ) (acc : HandlerAcc) (rid : ℕ) : HandlerAcc :=
  if uid ∈ membersOf acc.2.1.room_memberships rid then
    let r := leave_room fails acc.1 acc.2.1 uid rid
    (r.1, r.2.1, acc.2.2 ++ r.2.2)
  else acc

/-- `WebSocketManager.disconnect` lines 58-88: delete the connection,
leave every room containing the user (iterating over a snapshot of the
room keys), delete the location sample.  (The user row's `is_online`
flag lives in the external store and is not part of this state.) -/
def disconnect (fails : ℕ → Bool) (db : DB) (st : WSState) (uid : ℕ) : HandlerAcc :=
  let st1 := { st with active_connections := fun v => if v = uid then none else st.active_connections v }
  let acc : HandlerAcc :=
    (st1.room_memberships.map Prod.fst).foldl (disconnect_step fails uid) (db, st1, [])
  let st2 := acc.2.1
  (acc.1,
   { st2 with user_locations := fun v => if v = uid then none else st2.user_locations v },
   acc.2.2)

/-- One iteration of the rejoin loop of `_send_initial_data` lines 138-139. -/
def rejoin_step (fails : ℕ → Bool) (uid : ℕ) (acc : HandlerAcc) (rid : ℕ) : HandlerAcc :=
  let r := join_room fails acc.1 acc.2.1 uid rid
  (acc.1, r.1, acc.2.2 ++ r.2)

/-- `WebSocketManager.connect` lines 33-56 together with
`_send_initial_data` lines 125-145: register the socket under the user id
(silently superseding any previous one), then rejoin every room with an
active membership row for the user. -/
def connect (fails : ℕ → Bool) (db : DB) (st : WSState) (uid sock : ℕ) : HandlerAcc :=
  let st1 := { st with
    active_connections := fun v => if v = uid then some sock else st.active_connections v }
  let roomIds := (db.memberships.filter fun m => m.user_id == uid && m.is_active).map (·.room_id)
  roomIds.foldl (rejoin_step fails uid) (db, st1, [])

/-- `WebSocketManager.proximity_threshold = 0.1` (kilometers, i.e. 100 m). -/
def ws_proximity_threshold : ℚ := 1 / 10

/-- `WebSocketManager._check_proximity` lines 456-493 together with
`_send_proximity_notification` lines 495-514 — the proximity path that
actually runs on a `location_update` frame (`_handle_location_update`
line 342).  For each friend with location visibility and a stored
location row (the friend/location query results, passed as
`friendLocs`), the distance in kilometers is recomputed (`dist` stands
for `models.calculate_distance_between_points`, embedded over `ℝ`
separately below) and, whenever it is within the threshold, a
`friend_nearby` notification is sent to the updating user.  No cache is
consulted: the check is level-triggered, firing on every
within-threshold update, and nothing at all is emitted when the pair is
outside the threshold.  Python truthiness at lines 459-463: a missing
*or zero* latitude or longitude aborts the check. -/
def check_proximity (dist : ℚ × ℚ → ℚ × ℚ → ℚ) (fails : ℕ → Bool) (st : WSState)
    (uid : ℕ) (loc : ℚ × ℚ) (friendLocs : List (ℕ × (ℚ × ℚ))) :
    WSState × List Delivery :=
  if loc.1 = 0 ∨ loc.2 = 0 then (st, [])
  else
    friendLocs.foldl
      (fun (acc : WSState × List Delivery) fl =>
        let d := dist loc fl.2
        if d ≤ ws_proximity_threshold then
          let r := send_to_user fails acc.1 uid (.friend_nearby fl.1)
          (r.1, acc.2 ++ r.2)
        else acc)
      (st, [])

/-- Two-user configuration for the proximity scenario: user 1 is
connected on socket 4; user 2 is the mutually visible friend. -/
def proximity_ws : WSState :=
  { active_connections := fun v => if v = 1 then some 4 else none
    room_memberships := []
    user_locations := fun _ => none
    closed_sockets := [] }

/-! ### LocationService (`src/location_service.py`) -/

/-- `MovementState` enum. -/
inductive MovementState where
  | stationary
  | walking
  | driving
  | unknown
  deriving DecidableEq, Repr

/-- `LocationPoint` dataclass (the fields `_detect_movement_state` reads;
the timestamp is in seconds, matching `.total_seconds()` differences). -/
structure LocationPoint where
  latitude : ℚ
  longitude : ℚ
  timestamp : ℚ
  deriving DecidableEq, Repr

/-- Consecutive pairs of a list, i.e. the index pairs `(i-1, i)` of the
Python loop `for i in range(1, len(points))`. -/
def consecutive_pairs (l : List LocationPoint) : List (LocationPoint × LocationPoint) :=
  l.zip l.tail

/-- Summed pairwise distance of `_detect_movement_state` (`dist` stands for
`LocationService._calculate_distance`, a call into the external `geopy`
library, returning meters). -/
def total_distance (dist : LocationPoint → LocationPoint → ℚ) (l : List LocationPoint) : ℚ :=
  ((consecutive_pairs l).map fun p => dist p.1 p.2).sum

/-- Summed pairwise elapsed time of `_detect_movement_state`, seconds. -/
def total_time (l : List LocationPoint) : ℚ :=
  ((consecutive_pairs l).map fun p => p.2.timestamp - p.1.timestamp).sum

/-- Python `history[-5:]`. -/
def last_five (l : List LocationPoint) : List LocationPoint :=
  l.drop (l.length - 5)

/-- `LocationService._detect_movement_state` lines 370-412. -/
def detect_movement_state (dist : LocationPoint → LocationPoint → ℚ)
    (history : List LocationPoint) : MovementState :=
  if history.length < 2 then .unknown
  else
    let recent := last_five history
    if recent.length < 2 then .unknown
    else
      let td := total_distance dist recent
      let tt := total_time recent
      if tt ≤ 0 then .stationary
      else
        let avg_speed_kmh := td / tt * (18 / 5)
        if avg_speed_kmh < 1 then .stationary
        else if avg_speed_kmh < 8 then .walking
        else .driving

/-- `LocationService.proximity_threshold = 100.0` meters. -/
def proximity_threshold : ℚ := 100

/-- Proximity transition direction of a `ProximityEvent`. -/
inductive ProxEventType where
  | entered
  | exited
  deriving DecidableEq, Repr

/-- `ProximityEvent` dataclass (fields no claim mentions elided). -/
structure ProxEvent where
  user1_id : ℕ
  user2_id : ℕ
  distance_meters : ℚ
  event_type : ProxEventType
  deriving DecidableEq, Repr

/-- The pairwise distance cache `LocationService.proximity_cache`,
keyed by the unordered user pair `(min, max)`. -/
abbrev ProxCache := ℕ × ℕ → Option ℚ

/-- `LocationService._check_user_proximity` lines 444-508: for each friend
with mutual location visibility (the result of the friend/location join,
passed here as `friendLocs`), recompute the distance, emit `entered` /
`exited` exactly when the was-nearby boolean differs from the is-nearby
boolean, and then write the fresh distance into the cache.  A missing
cache entry counts as not-nearby.  `dist` stands for
`LocationService._calculate_distance` (external `geopy`). -/
def check_user_proximity (dist : ℚ × ℚ → ℚ × ℚ → ℚ) (cache : ProxCache)
    (uid : ℕ) (loc : ℚ × ℚ) (friendLocs : List (ℕ × (ℚ × ℚ))) :
    ProxCache × List ProxEvent :=
  friendLocs.foldl
    (fun (acc : ProxCache × List ProxEvent) fl =>
      let fid := fl.1
      let d := dist loc fl.2
      let key := (min uid fid, max uid fid)
      let was_nearby : Bool :=
        match acc.1 key with
        | none => false
        | some p => if p ≤ proximity_threshold then true else false
      let is_nearby : Bool := if d ≤ proximity_threshold then true else false
      let events :=
        if was_nearby ≠ is_nearby then
          acc.2 ++ [⟨uid, fid, d, if is_nearby then .entered else .exited⟩]
        else acc.2
      (fun k => if k = key then some d else acc.1 k, events))
    (cache, [])

/-- In-memory state of `LocationService` (the caches `__init__` sets up at
lines 57-83 that the claims mention). -/
structure LocState where
  proximity_cache : ProxCache
  user_geofence_status : ℕ × ℕ → Option Bool
  user_movement_history : ℕ → List LocationPoint
  movement_states : ℕ → Option MovementState

/-- Fresh `LocationService`. -/
def init_loc : LocState :=
  { proximity_cache := fun _ => none
    user_geofence_status := fun _ => none
    user_movement_history := fun _ => []
    movement_states := fun _ => none }

/-- The session-closed path of `main.py` lines 229-235: the `finally`
block calls `websocket_manager.disconnect(user_id)` and nothing else —
in particular no call into `LocationService`, whose caches are therefore
left untouched. -/
def on_session_closed (fails : ℕ → Bool) (db : DB) (st : WSState) (loc : LocState)
    (uid : ℕ) : DB × WSState × LocState × List Delivery :=
  let r := disconnect fails db st uid
  (r.1, r.2.1, loc, r.2.2)

/-! ### GeoMath (`src/models.py`) -/

/-- `math.radians`. -/
noncomputable def radians (x : ℝ) : ℝ := x * Real.pi / 180

/-- Python `math.atan2(y, x)`. -/
noncomputable def atan2 (y x : ℝ) : ℝ :=
  if 0 < x then Real.arctan (y / x)
  else if x < 0 then
    (if 0 ≤ y then Real.arctan (y / x) + Real.pi else Real.arctan (y / x) - Real.pi)
  else if 0 < y then Real.pi / 2
  else if y < 0 then -(Real.pi / 2)
  else 0

/-- The haversine `a` term shared by `calculate_distance_between_points`
and `is_location_within_room_boundary` in `models.py`. -/
noncomputable def haversine_a (lat1 lng1 lat2 lng2 : ℝ) : ℝ :=
  Real.sin (radians (lat2 - lat1) / 2) * Real.sin (radians (lat2 - lat1) / 2) +
    Real.cos (radians lat1) * Real.cos (radians lat2) *
      (Real.sin (radians (lng2 - lng1) / 2) * Real.sin (radians (lng2 - lng1) / 2))

/-- `models.calculate_distance_between_points` lines 436-446 (kilometers,
Earth radius constant 6371 km). -/
noncomputable def calculate_distance_between_points (lat1 lng1 lat2 lng2 : ℝ) : ℝ :=
  let a := haversine_a lat1 lng1 lat2 lng2
  let c := 2 * atan2 (Real.sqrt a) (Real.sqrt (1 - a))
  6371 * c

/-- `models.is_location_within_room_boundary` lines 415-434: haversine
distance from the room center, compared against the radius in km. -/
noncomputable def is_location_within_room_boundary_real
    (lat lng room_lat room_lng boundary_radius : ℝ) : Prop :=
  calculate_distance_between_points room_lat room_lng lat lng ≤ boundary_radius / 1000

/-! ### Sequences of in-memory membership operations

The three mutations of `WebSocketManager.room_memberships` reachable
through the handlers: the add of `_join_room`, the remove/prune of
`_leave_room`, and the per-room sweep of `disconnect`. -/

/-- One in-memory membership mutation. -/
inductive MemOp where
  | join (uid rid : ℕ)
  | leave (uid rid : ℕ)
  | disconnect (uid : ℕ)
  deriving DecidableEq, Repr

/-- Apply one membership mutation. -/
def apply_mem_op (ms : List (ℕ × List ℕ)) : MemOp → List (ℕ × List ℕ)
  | .join uid rid => mem_add ms rid uid
  | .leave uid rid => mem_remove ms rid uid
  | .disconnect uid => mem_disconnect ms uid

/-- Run a sequence of membership mutations from the fresh (empty) index. -/
def run_mem_ops (ops : List MemOp) : List (ℕ × List ℕ) :=
  ops.foldl apply_mem_op []

/-- The dict invariant: association-list keys are duplicate-free. -/
def keys_nodup (ms : List (ℕ × List ℕ)) : Prop :=
  (ms.map Prod.fst).Nodup

/-- Every occupant set in the index is non-empty. -/
def all_nonempty (ms : List (ℕ × List ℕ)) : Prop :=
  ∀ p ∈ ms, p.2 ≠ []

/-! ### C7: movement classification -/

/-- C7 counterexample: two samples with zero elapsed time between them.
The claim says the state defaults to Unknown whenever the total elapsed
time is zero, but `_detect_movement_state` line 395 returns STATIONARY
when `total_time <= 0`. -/
theorem c7_counterexample :
    detect_movement_state (fun _ _ => 0) [⟨0, 0, 0⟩, ⟨0, 0, 0⟩] = .stationary ∧
      detect_movement_state (fun _ _ => 0) [⟨0, 0, 0⟩, ⟨0, 0, 0⟩] ≠ .unknown := by
  constructor
  · simp [detect_movement_state, last_five, total_time, total_distance, consecutive_pairs]
  · simp [detect_movement_state, last_five, total_time, total_distance, consecutive_pairs]

/-- C7 (amended): the movement state is computed from the last up-to-5
samples as the average speed between consecutive samples (total distance
over total elapsed time, converted to km/h by the factor 3.6 = 18/5),
classified Stationary below 1 km/h, Walking below 8 km/h, Driving at
8 km/h and above; it is Unknown when fewer than 2 samples exist, and
Stationary (not Unknown) when the total elapsed time is not positive. -/
theorem c7_movement_classification (dist : LocationPoint → LocationPoint → ℚ)
    (history : List LocationPoint) :
    (history.length < 2 → detect_movement_state dist history = .unknown) ∧
    (2 ≤ history.length → total_time (last_five history) ≤ 0 →
      detect_movement_state dist history = .stationary) ∧
    (2 ≤ history.length → 0 < total_time (last_five history) →
      ((detect_movement_state dist history = .stationary ↔
          total_distance dist (last_five history) / total_time (last_five history) *
            (18 / 5) < 1) ∧
       (detect_movement_state dist history = .walking ↔
          1 ≤ total_distance dist (last_five history) / total_time (last_five history) *
            (18 / 5) ∧
          total_distance dist (last_five history) / total_time (last_five history) *
            (18 / 5) < 8) ∧
       (detect_movement_state dist history = .driving ↔
          8 ≤ total_distance dist (last_five history) / total_time (last_five history) *
            (18 / 5)))) := by
  refine ⟨fun h => by simp [detect_movement_state, h], ?_, ?_⟩
  · intro h2 ht
    have hlen : ¬ history.length < 2 := by omega
    have hrec : ¬ (last_five history).length < 2 := by
      simp only [last_five, List.length_drop]
      omega
    simp only [detect_movement_state, if_neg hlen, if_neg hrec, if_pos ht]
  · intro h2 ht
    have hlen : ¬ history.length < 2 := by omega
    have hrec : ¬ (last_five history).length < 2 := by
      simp only [last_five, List.length_drop]
      omega
    have htt : ¬ total_time (last_five history) ≤ 0 := by linarith
    simp only [detect_movement_state, if_neg hlen, if_neg hrec, if_neg htt]
    set s := total_distance dist (last_five history) / total_time (last_five history) * (18 / 5)
      with hs
    rcases lt_or_le s 1 with h1 | h1
    · have h1' : ¬ 1 ≤ s := not_le.mpr h1
      have h8 : ¬ 8 ≤ s := by linarith
      rw [if_pos h1]
      exact ⟨by simp [h1], by simp [h1'], by simp [h8]⟩
    · have h1' : ¬ s < 1 := not_lt.mpr h1
      rcases lt_or_le s 8 with h8 | h8
      · have h8' : ¬ 8 ≤ s := not_le.mpr h8
        rw [if_neg h1', if_pos h8]
        exact ⟨by simp [h1'], by simp [h1, h8], by simp [h8']⟩
      · have h8' : ¬ s < 8 := not_lt.mpr h8
        rw [if_neg h1', if_neg h8']
        exact ⟨by simp [h1'], by simp [h8'], by simp [h8]⟩

/-- C7 witness: two samples one second apart and 10 meters of travel give
36 km/h, classified Driving. -/
theorem c7_movement_classification_witness :
    (2 ≤ ([⟨0, 0, 0⟩, ⟨0, 0, 1⟩] : List LocationPoint).length ∧
      0 < total_time (last_five [⟨0, 0, 0⟩, ⟨0, 0, 1⟩])) ∧
    detect_movement_state (fun _ _ => 10) [⟨0, 0, 0⟩, ⟨0, 0, 1⟩] = .driving :=
  ⟨⟨by decide, by norm_num [total_time, last_five, consecutive_pairs]⟩,
    (((c7_movement_classification (fun _ _ => 10) [⟨0, 0, 0⟩, ⟨0, 0, 1⟩]).2.2
        (by decide)
        (by norm_num [total_time, last_five, consecutive_pairs])).2.2).mpr
      (by norm_num [total_distance, total_time, last_five, consecutive_pairs])⟩

/-! ### C10: distance round trip -/

/-- The haversine `a` term is symmetric in its two coordinates. -/
theorem haversine_a_comm (lat1 lng1 lat2 lng2 : ℝ) :
    haversine_a lat1 lng1 lat2 lng2 = haversine_a lat2 lng2 lat1 lng1 := by
  unfold haversine_a
  have e1 : radians (lat1 - lat2) = -radians (lat2 - lat1) := by unfold radians; ring
  have e2 : radians (lng1 - lng2) = -radians (lng2 - lng1) := by unfold radians; ring
  rw [e1, e2, neg_div, neg_div, Real.sin_neg, Real.sin_neg]
  ring

/-- C10: the haversine distance from a coordinate to itself is 0, and the
distance is symmetric in its two coordinates (Earth radius 6371 km). -/
theorem c10_distance_round_trip :
    (∀ lat lng : ℝ, calculate_distance_between_points lat lng lat lng = 0) ∧
    (∀ lat1 lng1 lat2 lng2 : ℝ,
      calculate_distance_between_points lat1 lng1 lat2 lng2 =
        calculate_distance_between_points lat2 lng2 lat1 lng1) := by
  constructor
  · intro lat lng
    have h0 : haversine_a lat lng lat lng = 0 := by
      unfold haversine_a radians
      simp
    simp only [calculate_distance_between_points, h0]
    norm_num [atan2, Real.arctan_zero]
  · intro lat1 lng1 lat2 lng2
    simp only [calculate_distance_between_points, haversine_a_comm lat1 lng1 lat2 lng2]

/-! ### Association-list dictionary lemmas -/

theorem dlookup_eq_none {α : Type} {ms : List (ℕ × α)} {r : ℕ} :
    dlookup r ms = none ↔ r ∉ ms.map Prod.fst := by
  induction ms with
  | nil => simp [dlookup]
  | cons p t ih =>
      by_cases hp : p.1 = r
      · simp [dlookup, hp]
      · simp [dlookup, hp, ih, Ne.symm hp]

theorem mem_keys_of_dlookup {α : Type} {ms : List (ℕ × α)} {r : ℕ} {l : α}
    (h : dlookup r ms = some l) : r ∈ ms.map Prod.fst := by
  by_contra hc
  rw [← dlookup_eq_none] at hc
  simp [hc] at h

theorem mem_of_dlookup {α : Type} {ms : List (ℕ × α)} {r : ℕ} {l : α}
    (h : dlookup r ms = some l) : (r, l) ∈ ms := by
  induction ms with
  | nil => simp [dlookup] at h
  | cons p t ih =>
      by_cases hp : p.1 = r
      · rw [dlookup, if_pos hp] at h
        have h2 : p.2 = l := by injection h
        subst hp
        subst h2
        exact List.mem_cons_self p t
      · rw [dlookup, if_neg hp] at h
        exact List.mem_cons_of_mem _ (ih h)

theorem dlookup_of_mem {α : Type} {ms : List (ℕ × α)} (hnd : (ms.map Prod.fst).Nodup)
    {r : ℕ} {l : α} (h : (r, l) ∈ ms) : dlookup r ms = some l := by
  induction ms with
  | nil => simp at h
  | cons p t ih =>
      simp only [List.map_cons, List.nodup_cons] at hnd
      rcases List.mem_cons.mp h with h1 | h1
      · cases h1.symm
        simp [dlookup]
      · have hr : r ∈ t.map Prod.fst := by
          have := List.mem_map_of_mem Prod.fst h1
          simpa using this
        have hp : p.1 ≠ r := by
          intro he
          exact hnd.1 (he ▸ hr)
        rw [dlookup, if_neg hp]
        exact ih hnd.2 h1

theorem foldl_preserve {α β : Type} {P : α → Prop} {f : α → β → α}
    (hf : ∀ a b, P a → P (f a b)) :
    ∀ (l : List β) (a : α), P a → P (l.foldl f a) := by
  intro l
  induction l with
  | nil => intro a ha; exact ha
  | cons b t ih => intro a ha; exact ih _ (hf a b ha)

/-! ### Keys of the membership mutations -/

theorem mem_add_keys (ms : List (ℕ × List ℕ)) (rid uid : ℕ) :
    (mem_add ms rid uid).map Prod.fst =
      if (dlookup rid ms).isSome then ms.map Prod.fst else ms.map Prod.fst ++ [rid] := by
  unfold mem_add
  cases h : dlookup rid ms with
  | none => simp [h]
  | some l =>
      simp only [h, Option.isSome_some, if_pos]
      rw [List.map_map]
      apply List.map_congr_left
      intro p _
      by_cases hp : p.1 = rid <;> simp [hp]

theorem mem_add_keys_nodup {ms : List (ℕ × List ℕ)} (hnd : keys_nodup ms) (rid uid : ℕ) :
    keys_nodup (mem_add ms rid uid) := by
  unfold keys_nodup
  rw [mem_add_keys]
  cases h : dlookup rid ms with
  | none =>
      have hr : rid ∉ ms.map Prod.fst := dlookup_eq_none.mp h
      have hnd' : (ms.map Prod.fst).Nodup := hnd
      simpa [List.nodup_append, hr] using hnd'
  | some l => simpa using hnd

theorem mem_remove_keys_sublist (ms : List (ℕ × List ℕ)) (rid uid : ℕ) :
    List.Sublist ((mem_remove ms rid uid).map Prod.fst) (ms.map Prod.fst) := by
  unfold mem_remove
  cases h : dlookup rid ms with
  | none => exact List.Sublist.refl _
  | some l =>
      have h1 : List.Sublist
          ((ms.map fun p =>
            if p.1 = rid then (p.1, p.2.filter (fun v => v ≠ uid)) else p).filter
              (fun p => p.1 ≠ rid ∨ p.2 ≠ []))
          (ms.map fun p => if p.1 = rid then (p.1, p.2.filter (fun v => v ≠ uid)) else p) :=
        List.filter_sublist _
      have h2 := h1.map Prod.fst
      have h3 : ((ms.map fun p =>
          if p.1 = rid then (p.1, p.2.filter (fun v => v ≠ uid)) else p).map Prod.fst) =
          ms.map Prod.fst := by
        rw [List.map_map]
        apply List.map_congr_left
        intro p _
        by_cases hp : p.1 = rid <;> simp [hp]
      rw [h3] at h2
      exact h2

theorem mem_remove_keys_nodup {ms : List (ℕ × List ℕ)} (hnd : keys_nodup ms) (rid uid : ℕ) :
    keys_nodup (mem_remove ms rid uid) :=
  (mem_remove_keys_sublist ms rid uid).nodup hnd

theorem mem_disconnect_keys_nodup {ms : List (ℕ × List ℕ)} (hnd : keys_nodup ms) (uid : ℕ) :
    keys_nodup (mem_disconnect ms uid) := by
  unfold mem_disconnect
  apply foldl_preserve (P := keys_nodup)
  · intro a rid ha
    by_cases hm : uid ∈ membersOf a rid
    · rw [if_pos hm]
      exact mem_remove_keys_nodup ha rid uid
    · rwa [if_neg hm]
  · exact hnd

theorem run_mem_ops_keys_nodup (ops : List MemOp) : keys_nodup (run_mem_ops ops) := by
  unfold run_mem_ops
  apply foldl_preserve (P := keys_nodup)
  · intro a op ha
    cases op with
    | join uid rid => exact mem_add_keys_nodup ha rid uid
    | leave uid rid => exact mem_remove_keys_nodup ha rid uid
    | disconnect uid => exact mem_disconnect_keys_nodup ha uid
  · simp [keys_nodup]

/-! ### Non-emptiness of occupant sets -/

theorem mem_add_all_nonempty {ms : List (ℕ × List ℕ)} (hne : all_nonempty ms) (rid uid : ℕ) :
    all_nonempty (mem_add ms rid uid) := by
  unfold mem_add
  cases h : dlookup rid ms with
  | none =>
      intro p hp
      rcases List.mem_append.mp hp with hp | hp
      · exact hne p hp
      · simp only [List.mem_singleton] at hp
        subst hp
        simp
  | some l =>
      intro p hp
      rcases List.mem_map.mp hp with ⟨q, hq, rfl⟩
      by_cases hq1 : q.1 = rid
      · by_cases hu : uid ∈ q.2
        · simpa [hq1, hu] using hne q hq
        · simp [hq1, hu]
      · simpa [hq1] using hne q hq

theorem mem_remove_all_nonempty {ms : List (ℕ × List ℕ)} (hne : all_nonempty ms) (rid uid : ℕ) :
    all_nonempty (mem_remove ms rid uid) := by
  unfold mem_remove
  cases h : dlookup rid ms with
  | none => exact hne
  | some l =>
      intro p hp
      have hp' := List.mem_filter.mp hp
      rcases List.mem_map.mp hp'.1 with ⟨q, hq, rfl⟩
      have hpred := hp'.2
      by_cases hq1 : q.1 = rid
      · simp only [hq1, if_pos] at hpred ⊢
        simp only [decide_eq_true_eq] at hpred
        rcases hpred with hpred | hpred
        · exact absurd rfl hpred
        · exact hpred
      · simpa [hq1] using hne q hq

theorem mem_disconnect_all_nonempty {ms : List (ℕ × List ℕ)} (hne : all_nonempty ms)
    (uid : ℕ) : all_nonempty (mem_disconnect ms uid) := by
  unfold mem_disconnect
  apply foldl_preserve (P := all_nonempty)
  · intro a rid ha
    by_cases hm : uid ∈ membersOf a rid
    · rw [if_pos hm]
      exact mem_remove_all_nonempty ha rid uid
    · rwa [if_neg hm]
  · exact hne

theorem run_mem_ops_all_nonempty (ops : List MemOp) : all_nonempty (run_mem_ops ops) := by
  unfold run_mem_ops
  apply foldl_preserve (P := all_nonempty)
  · intro a op ha
    cases op with
    | join uid rid => exact mem_add_all_nonempty ha rid uid
    | leave uid rid => exact mem_remove_all_nonempty ha rid uid
    | disconnect uid => exact mem_disconnect_all_nonempty ha uid
  · intro p hp
    simp at hp

/-! ### C6: bidirectional membership index -/

theorem mem_filter_keys_of_mem {ms : List (ℕ × List ℕ)} {u r : ℕ}
    (h : r ∈ ((ms.filter fun p => decide (u ∈ p.2)).map Prod.fst)) :
    r ∈ ms.map Prod.fst := by
  rcases List.mem_map.mp h with ⟨p, hp, rfl⟩
  exact List.mem_map_of_mem Prod.fst (List.mem_of_mem_filter hp)

/-- On any index with duplicate-free keys (the dict invariant), occupant
lookup and the room scan of `get_user_rooms` agree. -/
theorem membersOf_iff_get_user_rooms {ms : List (ℕ × List ℕ)} (hnd : keys_nodup ms)
    (u r : ℕ) : u ∈ membersOf ms r ↔ r ∈ get_user_rooms ms u := by
  induction ms with
  | nil => simp [membersOf, dlookup, get_user_rooms]
  | cons p t ih =>
      have hnd' : keys_nodup t := by
        have := hnd
        simp only [keys_nodup, List.map_cons, List.nodup_cons] at this
        exact this.2
      have hhead : p.1 ∉ t.map Prod.fst := by
        have := hnd
        simp only [keys_nodup, List.map_cons, List.nodup_cons] at this
        exact this.1
      by_cases hpr : p.1 = r
      · by_cases hu : u ∈ p.2
        · simp [membersOf, dlookup, get_user_rooms, hpr, hu]
        · have hnot : r ∉ ((t.filter fun q => decide (u ∈ q.2)).map Prod.fst) := by
            intro hc
            exact hhead (hpr ▸ mem_filter_keys_of_mem hc)
          simp [membersOf, dlookup, get_user_rooms, hpr, hu, hnot]
      · have heq := ih hnd'
        by_cases hu : u ∈ p.2
        · simpa [membersOf, dlookup, get_user_rooms, hpr, hu, Ne.symm hpr] using heq
        · simpa [membersOf, dlookup, get_user_rooms, hpr, hu] using heq

/-- C6: after any sequence of join / leave / disconnect mutations of the
in-memory index, a user is in the occupant set looked up for a room iff
that room is in the list `get_user_rooms` computes for the user. -/
theorem c6_bidirectional_index (ops : List MemOp) (u r : ℕ) :
    u ∈ membersOf (run_mem_ops ops) r ↔ r ∈ get_user_rooms (run_mem_ops ops) u :=
  membersOf_iff_get_user_rooms (run_mem_ops_keys_nodup ops) u r

/-! ### C9: empty rooms are pruned -/

/-- C9: after any sequence of join / leave / disconnect mutations of the
in-memory index, every room id present in the index maps to a non-empty
occupant set (emptied rooms are pruned by `_leave_room`). -/
theorem c9_empty_rooms_pruned (ops : List MemOp) (r : ℕ) (members : List ℕ)
    (h : dlookup r (run_mem_ops ops) = some members) : members ≠ [] :=
  run_mem_ops_all_nonempty ops (r, members) (mem_of_dlookup h)

/-- C9 witness: after a single join the room maps to the one-element set. -/
theorem c9_empty_rooms_pruned_witness :
    dlookup 5 (run_mem_ops [MemOp.join 1 5]) = some [1] ∧ ([1] : List ℕ) ≠ [] :=
  ⟨by decide, c9_empty_rooms_pruned [MemOp.join 1 5] 5 [1] (by decide)⟩

/-! ### Preservation lemmas for the send / broadcast layer -/

theorem send_to_user_rooms (fails : ℕ → Bool) (st : WSState) (u : ℕ) (m : OutMsg) :
    (send_to_user fails st u m).1.room_memberships = st.room_memberships := by
  unfold send_to_user
  cases h : st.active_connections u with
  | none => rfl
  | some sock => by_cases hf : fails sock <;> simp [hf]

theorem send_to_user_locs (fails : ℕ → Bool) (st : WSState) (u : ℕ) (m : OutMsg) :
    (send_to_user fails st u m).1.user_locations = st.user_locations := by
  unfold send_to_user
  cases h : st.active_connections u with
  | none => rfl
  | some sock => by_cases hf : fails sock <;> simp [hf]

theorem send_to_user_closed (fails : ℕ → Bool) (st : WSState) (u : ℕ) (m : OutMsg) :
    (send_to_user fails st u m).1.closed_sockets = st.closed_sockets := by
  unfold send_to_user
  cases h : st.active_connections u with
  | none => rfl
  | some sock => by_cases hf : fails sock <;> simp [hf]

theorem send_to_user_conn_some {fails : ℕ → Bool} {st : WSState} {u s : ℕ}
    (v : ℕ) (m : OutMsg) (h : st.active_connections u = some s) (hf : fails s = false) :
    (send_to_user fails st v m).1.active_connections u = some s := by
  unfold send_to_user
  cases hv : st.active_connections v with
  | none => exact h
  | some sv =>
      by_cases hfv : fails sv
      · simp only [hfv, if_pos]
        by_cases huv : u = v
        · subst huv
          rw [h] at hv
          injection hv with hsv
          rw [← hsv, hf] at hfv
          simp at hfv
        · simp [huv, h]
      · simp [hfv, h]

theorem send_to_user_conn_none {fails : ℕ → Bool} {st : WSState} {u : ℕ}
    (v : ℕ) (m : OutMsg) (h : st.active_connections u = none) :
    (send_to_user fails st v m).1.active_connections u = none := by
  unfold send_to_user
  cases hv : st.active_connections v with
  | none => exact h
  | some sv =>
      by_cases hfv : fails sv
      · simp only [hfv, if_pos]
        by_cases huv : u = v <;> simp [huv, h]
      · simp [hfv, h]

theorem send_to_user_conn_other {fails : ℕ → Bool} {st : WSState} {u v : ℕ}
    (m : OutMsg) (huv : u ≠ v) :
    (send_to_user fails st v m).1.active_connections u = st.active_connections u := by
  unfold send_to_user
  cases hv : st.active_connections v with
  | none => rfl
  | some sv =>
      by_cases hfv : fails sv
      · simp [hfv, huv]
      · simp [hfv]

theorem send_to_user_deliver {fails : ℕ → Bool} {st : WSState} {u s : ℕ} (m : OutMsg)
    (h : st.active_connections u = some s) (hf : fails s = false) :
    send_to_user fails st u m = (st, [(u, s, m)]) := by
  unfold send_to_user
  rw [h]
  simp [hf]

theorem send_to_user_shape {fails : ℕ → Bool} {st : WSState} {u : ℕ} {m : OutMsg} :
    ∀ d ∈ (send_to_user fails st u m).2, d.2.2 = m := by
  unfold send_to_user
  cases h : st.active_connections u with
  | none => simp
  | some sock =>
      by_cases hf : fails sock <;> simp [hf]

theorem send_list_rooms (fails : ℕ → Bool) (st : WSState) (ts : List ℕ) (m : OutMsg) :
    (send_list fails st ts m).1.room_memberships = st.room_memberships := by
  induction ts generalizing st with
  | nil => rfl
  | cons t rest ih =>
      simp only [send_list]
      rw [ih, send_to_user_rooms]

theorem send_list_locs (fails : ℕ → Bool) (st : WSState) (ts : List ℕ) (m : OutMsg) :
    (send_list fails st ts m).1.user_locations = st.user_locations := by
  induction ts generalizing st with
  | nil => rfl
  | cons t rest ih =>
      simp only [send_list]
      rw [ih, send_to_user_locs]

theorem send_list_closed (fails : ℕ → Bool) (st : WSState) (ts : List ℕ) (m : OutMsg) :
    (send_list fails st ts m).1.closed_sockets = st.closed_sockets := by
  induction ts generalizing st with
  | nil => rfl
  | cons t rest ih =>
      simp only [send_list]
      rw [ih, send_to_user_closed]

theorem send_list_conn_some {fails : ℕ → Bool} {st : WSState} {u s : ℕ}
    (ts : List ℕ) (m : OutMsg) (h : st.active_connections u = some s) (hf : fails s = false) :
    (send_list fails st ts m).1.active_connections u = some s := by
  induction ts generalizing st with
  | nil => exact h
  | cons t rest ih =>
      simp only [send_list]
      exact ih (send_to_user_conn_some t m h hf)

theorem send_list_conn_none {fails : ℕ → Bool} {st : WSState} {u : ℕ}
    (ts : List ℕ) (m : OutMsg) (h : st.active_connections u = none) :
    (send_list fails st ts m).1.active_connections u = none := by
  induction ts generalizing st with
  | nil => exact h
  | cons t rest ih =>
      simp only [send_list]
      exact ih (send_to_user_conn_none t m h)

theorem send_list_deliver_mem {fails : ℕ → Bool} {st : WSState} {u s : ℕ}
    {ts : List ℕ} (m : OutMsg) (h : st.active_connections u = some s)
    (hf : fails s = false) (hm : u ∈ ts) :
    (u, s, m) ∈ (send_list fails st ts m).2 := by
  induction ts generalizing st with
  | nil => simp at hm
  | cons t rest ih =>
      simp only [send_list, List.mem_append]
      by_cases hut : u = t
      · subst hut
        rw [send_to_user_deliver m h hf]
        simp
      · rcases List.mem_cons.mp hm with hm1 | hm1
        · exact absurd hm1 hut
        · right
          exact ih (by rw [send_to_user_conn_other m hut]; exact h) hm1

theorem send_list_conn_fails {fails : ℕ → Bool} {st : WSState} {u s : ℕ}
    {ts : List ℕ} (m : OutMsg) (h : st.active_connections u = some s)
    (hf : fails s = true) (hm : u ∈ ts) :
    (send_list fails st ts m).1.active_connections u = none := by
  induction ts generalizing st with
  | nil => simp at hm
  | cons t rest ih =>
      simp only [send_list]
      by_cases hut : u = t
      · subst hut
        have hdead : (send_to_user fails st u m).1.active_connections u = none := by
          unfold send_to_user
          rw [h]
          simp [hf]
        exact send_list_conn_none rest m hdead
      · rcases List.mem_cons.mp hm with hm1 | hm1
        · exact absurd hm1 hut
        · exact ih (by rw [send_to_user_conn_other m hut]; exact h) hm1

theorem send_list_shape {fails : ℕ → Bool} {st : WSState} {ts : List ℕ} {m : OutMsg} :
    ∀ d ∈ (send_list fails st ts m).2, d.2.2 = m := by
  induction ts generalizing st with
  | nil => simp [send_list]
  | cons t rest ih =>
      simp only [send_list]
      intro d hd
      rcases List.mem_append.mp hd with hd1 | hd1
      · exact send_to_user_shape d hd1
      · exact ih d hd1

theorem broadcast_rooms (fails : ℕ → Bool) (st : WSState) (rid : ℕ) (m : OutMsg)
    (ex : Option ℕ) :
    (broadcast_to_room fails st rid m ex).1.room_memberships = st.room_memberships := by
  unfold broadcast_to_room
  cases h : dlookup rid st.room_memberships with
  | none => rfl
  | some members => exact send_list_rooms _ _ _ _

theorem broadcast_locs (fails : ℕ → Bool) (st : WSState) (rid : ℕ) (m : OutMsg)
    (ex : Option ℕ) :
    (broadcast_to_room fails st rid m ex).1.user_locations = st.user_locations := by
  unfold broadcast_to_room
  cases h : dlookup rid st.room_memberships with
  | none => rfl
  | some members => exact send_list_locs _ _ _ _

theorem broadcast_closed (fails : ℕ → Bool) (st : WSState) (rid : ℕ) (m : OutMsg)
    (ex : Option ℕ) :
    (broadcast_to_room fails st rid m ex).1.closed_sockets = st.closed_sockets := by
  unfold broadcast_to_room
  cases h : dlookup rid st.room_memberships with
  | none => rfl
  | some members => exact send_list_closed _ _ _ _

theorem broadcast_conn_some {fails : ℕ → Bool} {st : WSState} {u s : ℕ}
    (rid : ℕ) (m : OutMsg) (ex : Option ℕ)
    (h : st.active_connections u = some s) (hf : fails s = false) :
    (broadcast_to_room fails st rid m ex).1.active_connections u = some s := by
  unfold broadcast_to_room
  cases hl : dlookup rid st.room_memberships with
  | none => exact h
  | some members => exact send_list_conn_some _ m h hf

theorem broadcast_conn_none {fails : ℕ → Bool} {st : WSState} {u : ℕ}
    (rid : ℕ) (m : OutMsg) (ex : Option ℕ) (h : st.active_connections u = none) :
    (broadcast_to_room fails st rid m ex).1.active_connections u = none := by
  unfold broadcast_to_room
  cases hl : dlookup rid st.room_memberships with
  | none => exact h
  | some members => exact send_list_conn_none _ m h

theorem broadcast_shape {fails : ℕ → Bool} {st : WSState} {rid : ℕ} {m : OutMsg}
    {ex : Option ℕ} :
    ∀ d ∈ (broadcast_to_room fails st rid m ex).2, d.2.2 = m := by
  unfold broadcast_to_room
  cases hl : dlookup rid st.room_memberships with
  | none => simp
  | some members => exact send_list_shape

/-! ### Preservation lemmas for the room handlers -/

theorem join_room_rooms (fails : ℕ → Bool) (db : DB) (st : WSState) (uid rid : ℕ) :
    (join_room fails db st uid rid).1.room_memberships =
      mem_add st.room_memberships rid uid := by
  unfold join_room
  cases h : db_get_room db rid with
  | none => rfl
  | some room => simp [broadcast_rooms, send_to_user_rooms]

theorem join_room_locs (fails : ℕ → Bool) (db : DB) (st : WSState) (uid rid : ℕ) :
    (join_room fails db st uid rid).1.user_locations = st.user_locations := by
  unfold join_room
  cases h : db_get_room db rid with
  | none => rfl
  | some room => simp [broadcast_locs, send_to_user_locs]

theorem join_room_closed (fails : ℕ → Bool) (db : DB) (st : WSState) (uid rid : ℕ) :
    (join_room fails db st uid rid).1.closed_sockets = st.closed_sockets := by
  unfold join_room
  cases h : db_get_room db rid with
  | none => rfl
  | some room => simp [broadcast_closed, send_to_user_closed]

theorem join_room_conn_some {fails : ℕ → Bool} {st : WSState} {u s : ℕ}
    (db : DB) (uid rid : ℕ) (h : st.active_connections u = some s) (hf : fails s = false) :
    (join_room fails db st uid rid).1.active_connections u = some s := by
  unfold join_room
  cases hr : db_get_room db rid with
  | none => exact h
  | some room =>
      exact broadcast_conn_some _ _ _
        (broadcast_conn_some _ _ _ (send_to_user_conn_some _ _ h hf) hf) hf

theorem join_room_shape {fails : ℕ → Bool} {db : DB} {st : WSState} {uid rid : ℕ} :
    ∀ d ∈ (join_room fails db st uid rid).2,
      d.2.2 = OutMsg.room_joined rid ∨ d.2.2 = OutMsg.user_joined uid rid ∨
        d.2.2 = OutMsg.room_users_update rid := by
  unfold join_room
  cases hr : db_get_room db rid with
  | none => simp
  | some room =>
      intro d hd
      simp only [List.append_assoc, List.mem_append] at hd
      rcases hd with hd | hd | hd
      · exact Or.inl (send_to_user_shape d hd)
      · exact Or.inr (Or.inl (broadcast_shape d hd))
      · exact Or.inr (Or.inr (broadcast_shape d hd))

theorem leave_room_rooms (fails : ℕ → Bool) (db : DB) (st : WSState) (uid rid : ℕ) :
    (leave_room fails db st uid rid).2.1.room_memberships =
      mem_remove st.room_memberships rid uid := by
  unfold leave_room
  simp [broadcast_rooms]

theorem leave_room_locs (fails : ℕ → Bool) (db : DB) (st : WSState) (uid rid : ℕ) :
    (leave_room fails db st uid rid).2.1.user_locations = st.user_locations := by
  unfold leave_room
  simp [broadcast_locs]

theorem leave_room_closed (fails : ℕ → Bool) (db : DB) (st : WSState) (uid rid : ℕ) :
    (leave_room fails db st uid rid).2.1.closed_sockets = st.closed_sockets := by
  unfold leave_room
  simp [broadcast_closed]

theorem leave_room_conn_none {fails : ℕ → Bool} {st : WSState} {u : ℕ}
    (db : DB) (uid rid : ℕ) (h : st.active_connections u = none) :
    (leave_room fails db st uid rid).2.1.active_connections u = none := by
  unfold leave_room
  exact broadcast_conn_none _ _ _ (broadcast_conn_none _ _ _ h)

/-! ### Preservation lemmas for disconnect -/

theorem disconnect_step_rooms (fails : ℕ → Bool) (uid : ℕ) (acc : HandlerAcc) (rid : ℕ) :
    (disconnect_step fails uid acc rid).2.1.room_memberships =
      (if uid ∈ membersOf acc.2.1.room_memberships rid then
        mem_remove acc.2.1.room_memberships rid uid
      else acc.2.1.room_memberships) := by
  unfold disconnect_step
  by_cases hm : uid ∈ membersOf acc.2.1.room_memberships rid
  · simp only [hm, if_pos]
    exact leave_room_rooms _ _ _ _ _
  · simp [hm]

theorem disconnect_fold_rooms (fails : ℕ → Bool) (uid : ℕ) (ks : List ℕ) :
    ∀ acc : HandlerAcc,
      ((ks.foldl (disconnect_step fails uid) acc).2.1.room_memberships) =
        ks.foldl (fun a rid => if uid ∈ membersOf a rid then mem_remove a rid uid else a)
          acc.2.1.room_memberships := by
  induction ks with
  | nil => intro acc; rfl
  | cons k rest ih =>
      intro acc
      simp only [List.foldl_cons]
      rw [ih, disconnect_step_rooms]

theorem disconnect_rooms (fails : ℕ → Bool) (db : DB) (st : WSState) (uid : ℕ) :
    (disconnect fails db st uid).2.1.room_memberships =
      mem_disconnect st.room_memberships uid := by
  unfold disconnect mem_disconnect
  rw [disconnect_fold_rooms]

theorem disconnect_step_locs (fails : ℕ → Bool) (uid : ℕ) (acc : HandlerAcc) (rid : ℕ) :
    (disconnect_step fails uid acc rid).2.1.user_locations = acc.2.1.user_locations := by
  unfold disconnect_step
  by_cases hm : uid ∈ membersOf acc.2.1.room_memberships rid
  · simp only [hm, if_pos]
    exact leave_room_locs _ _ _ _ _
  · simp [hm]

theorem disconnect_step_closed (fails : ℕ → Bool) (uid : ℕ) (acc : HandlerAcc) (rid : ℕ) :
    (disconnect_step fails uid acc rid).2.1.closed_sockets = acc.2.1.closed_sockets := by
  unfold disconnect_step
  by_cases hm : uid ∈ membersOf acc.2.1.room_memberships rid
  · simp only [hm, if_pos]
    exact leave_room_closed _ _ _ _ _
  · simp [hm]

theorem disconnect_step_conn_none {fails : ℕ → Bool} {uid u : ℕ} (acc : HandlerAcc)
    (rid : ℕ) (h : acc.2.1.active_connections u = none) :
    (disconnect_step fails uid acc rid).2.1.active_connections u = none := by
  unfold disconnect_step
  by_cases hm : uid ∈ membersOf acc.2.1.room_memberships rid
  · simp only [hm, if_pos]
    exact leave_room_conn_none _ _ _ h
  · simp [hm, h]

theorem disconnect_fold_locs (fails : ℕ → Bool) (uid : ℕ) (ks : List ℕ) :
    ∀ acc : HandlerAcc,
      (ks.foldl (disconnect_step fails uid) acc).2.1.user_locations =
        acc.2.1.user_locations := by
  induction ks with
  | nil => intro acc; rfl
  | cons k rest ih =>
      intro acc
      simp only [List.foldl_cons]
      rw [ih, disconnect_step_locs]

theorem disconnect_fold_closed (fails : ℕ → Bool) (uid : ℕ) (ks : List ℕ) :
    ∀ acc : HandlerAcc,
      (ks.foldl (disconnect_step fails uid) acc).2.1.closed_sockets =
        acc.2.1.closed_sockets := by
  induction ks with
  | nil => intro acc; rfl
  | cons k rest ih =>
      intro acc
      simp only [List.foldl_cons]
      rw [ih, disconnect_step_closed]

theorem disconnect_fold_conn_none {fails : ℕ → Bool} {uid u : ℕ} (ks : List ℕ) :
    ∀ acc : HandlerAcc, acc.2.1.active_connections u = none →
      (ks.foldl (disconnect_step fails uid) acc).2.1.active_connections u = none := by
  induction ks with
  | nil => intro acc h; exact h
  | cons k rest ih =>
      intro acc h
      simp only [List.foldl_cons]
      exact ih _ (disconnect_step_conn_none acc k h)

/-! ### Removal lemmas for the membership index -/

theorem mem_remove_lookup_self (rid uid : ℕ) (ms : List (ℕ × List ℕ)) :
    uid ∉ (dlookup rid ((ms.map fun p =>
      if p.1 = rid then (p.1, p.2.filter fun v => v ≠ uid) else p).filter
        fun p => p.1 ≠ rid ∨ p.2 ≠ [])).getD [] := by
  induction ms with
  | nil => simp [dlookup]
  | cons p t ih =>
      simp only [List.map_cons]
      by_cases hp : p.1 = rid
      · rw [if_pos hp]
        by_cases hpe : p.2.filter (fun v => v ≠ uid) = []
        · rw [List.filter_cons_of_neg]
          · exact ih
          · simp only [decide_eq_true_eq]
            push_neg
            exact ⟨hp, hpe⟩
        · rw [List.filter_cons_of_pos]
          · simp [dlookup, hp, List.mem_filter]
          · simp only [decide_eq_true_eq]
            exact Or.inr hpe
      · rw [if_neg hp]
        rw [List.filter_cons_of_pos]
        · simp only [dlookup, if_neg hp]
          exact ih
        · simp only [decide_eq_true_eq]
          exact Or.inl hp

theorem mem_remove_lookup_other {r' rid : ℕ} (uid : ℕ) (hne : r' ≠ rid)
    (ms : List (ℕ × List ℕ)) :
    dlookup r' ((ms.map fun p =>
      if p.1 = rid then (p.1, p.2.filter fun v => v ≠ uid) else p).filter
        fun p => p.1 ≠ rid ∨ p.2 ≠ []) = dlookup r' ms := by
  induction ms with
  | nil => rfl
  | cons p t ih =>
      simp only [List.map_cons]
      by_cases hp : p.1 = rid
      · have hpr : ¬ p.1 = r' := fun he => hne (he ▸ hp)
        rw [if_pos hp]
        by_cases hpe : p.2.filter (fun v => v ≠ uid) = []
        · rw [List.filter_cons_of_neg]
          · rw [ih]
            rw [dlookup, if_neg hpr]
          · simp only [decide_eq_true_eq]
            push_neg
            exact ⟨hp, hpe⟩
        · rw [List.filter_cons_of_pos]
          · simp only [dlookup, if_neg hpr]
            exact ih
          · simp only [decide_eq_true_eq]
            exact Or.inr hpe
      · rw [if_neg hp]
        rw [List.filter_cons_of_pos]
        · by_cases hpr : p.1 = r'
          · simp [dlookup, hpr]
          · simp only [dlookup, if_neg hpr]
            exact ih
        · simp only [decide_eq_true_eq]
          exact Or.inl hp

theorem mem_remove_self (ms : List (ℕ × List ℕ)) (rid uid : ℕ) :
    uid ∉ membersOf (mem_remove ms rid uid) rid := by
  unfold mem_remove
  cases h : dlookup rid ms with
  | none => simp [membersOf, h]
  | some l => exact mem_remove_lookup_self rid uid ms

theorem mem_remove_other {r' rid : ℕ} (hne : r' ≠ rid) (ms : List (ℕ × List ℕ)) (uid : ℕ) :
    membersOf (mem_remove ms rid uid) r' = membersOf ms r' := by
  unfold mem_remove
  cases h : dlookup rid ms with
  | none => rfl
  | some l =>
      unfold membersOf
      rw [mem_remove_lookup_other uid hne]

theorem mem_fold_remove_not_mem (uid : ℕ) :
    ∀ (ks : List ℕ) (a : List (ℕ × List ℕ)),
      (∀ r, uid ∈ membersOf a r → r ∈ ks) →
      ∀ r, uid ∉ membersOf
        (ks.foldl (fun acc rid =>
          if uid ∈ membersOf acc rid then mem_remove acc rid uid else acc) a) r := by
  intro ks
  induction ks with
  | nil =>
      intro a ha r hr
      exact absurd (ha r hr) (by simp)
  | cons k rest ih =>
      intro a ha r
      simp only [List.foldl_cons]
      apply ih
      intro r' hr'
      by_cases hrk : r' = k
      · subst hrk
        exfalso
        by_cases hm : uid ∈ membersOf a r'
        · rw [if_pos hm] at hr'
          exact mem_remove_self a r' uid hr'
        · rw [if_neg hm] at hr'
          exact hm hr'
      · have h0 : uid ∈ membersOf a r' := by
          by_cases hm : uid ∈ membersOf a k
          · rw [if_pos hm] at hr'
            rwa [mem_remove_other hrk] at hr'
          · rwa [if_neg hm] at hr'
        rcases List.mem_cons.mp (ha r' h0) with h1 | h1
        · exact absurd h1 hrk
        · exact h1

theorem mem_disconnect_not_mem (ms : List (ℕ × List ℕ)) (uid rid : ℕ) :
    uid ∉ membersOf (mem_disconnect ms uid) rid := by
  unfold mem_disconnect
  apply mem_fold_remove_not_mem
  intro r hr
  cases h : dlookup r ms with
  | none => simp [membersOf, h] at hr
  | some l => exact mem_keys_of_dlookup h

/-! ### C4: disconnect cleanup -/

/-- C4 counterexample: a user with a cached proximity-pair entry
disconnects; the session-closed path (`main.py` lines 229-235 calls only
`WebSocketManager.disconnect`) leaves `LocationService.proximity_cache`
untouched, so the pair entry for the disconnected user survives — the
claim says the user has no cached proximity-pair entries afterwards. -/
theorem c4_counterexample :
    ((on_session_closed (fun _ => false) init_db init_ws
        { init_loc with proximity_cache := fun k => if k = (1, 2) then some 50 else none }
        1).2.2.1.proximity_cache (1, 2)) = some 50 := by
  rfl

/-- C4 (amended): after the session-closed handling for `u` completes,
`u` appears in no room's occupant set, `u`'s stored location sample is
removed, and `isOnline u` is false; the `LocationService` caches,
including `u`'s proximity-pair entries, are left untouched (the
disconnect path never calls into `LocationService`). -/
theorem c4_disconnect_cleanup (fails : ℕ → Bool) (db : DB) (st : WSState)
    (loc : LocState) (u : ℕ) :
    (∀ rid, u ∉ membersOf (on_session_closed fails db st loc u).2.1.room_memberships rid) ∧
    (on_session_closed fails db st loc u).2.1.user_locations u = none ∧
    is_user_online (on_session_closed fails db st loc u).2.1 u = false ∧
    (on_session_closed fails db st loc u).2.2.1 = loc := by
  refine ⟨?_, ?_, ?_, rfl⟩
  · intro rid
    have h : (on_session_closed fails db st loc u).2.1.room_memberships =
        mem_disconnect st.room_memberships u := disconnect_rooms fails db st u
    rw [h]
    exact mem_disconnect_not_mem st.room_memberships u rid
  · show (disconnect fails db st u).2.1.user_locations u = none
    unfold disconnect
    simp
  · show is_user_online (disconnect fails db st u).2.1 u = false
    unfold is_user_online disconnect
    simp only []
    have h : ((List.map Prod.fst
        ({ st with active_connections := fun v =>
            if v = u then none else st.active_connections v } : WSState).room_memberships).foldl
          (disconnect_step fails u)
          (db, { st with active_connections := fun v =>
            if v = u then none else st.active_connections v }, [])).2.1.active_connections u
        = none := by
      apply disconnect_fold_conn_none
      simp
    simp [h]

/-! ### C5: fan-out isolation -/

/-- C5: in a room broadcast, a member whose socket works receives the
message no matter which other sockets fail (each send is attempted
independently and a failed one is swallowed), and a member whose socket
fails is removed from the registry and subsequently reported offline. -/
theorem c5_fanout_isolation (fails : ℕ → Bool) (st : WSState) (rid : ℕ) (msg : OutMsg)
    (members : List ℕ) (u s : ℕ)
    (hm : dlookup rid st.room_memberships = some members)
    (hu : u ∈ members)
    (hs : st.active_connections u = some s) :
    (fails s = false → (u, s, msg) ∈ (broadcast_to_room fails st rid msg none).2) ∧
    (fails s = true →
      is_user_online (broadcast_to_room fails st rid msg none).1 u = false) := by
  constructor
  · intro hf
    unfold broadcast_to_room
    simp only [hm]
    exact send_list_deliver_mem msg hs hf hu
  · intro hf
    unfold is_user_online broadcast_to_room
    simp only [hm]
    rw [send_list_conn_fails msg hs hf hu]
    rfl

/-- Three-member room used to witness the fan-out claims; user 2's socket
is the failing one. -/
def fanout_ws : WSState :=
  { active_connections := fun v =>
      if v = 1 then some 10 else if v = 2 then some 20 else if v = 3 then some 30 else none
    room_memberships := [(5, [1, 2, 3])]
    user_locations := fun _ => none
    closed_sockets := [] }

/-- C5 witness: with members 1, 2, 3 and socket 20 (user 2) failing,
user 1 still receives the broadcast and user 2 ends up offline. -/
theorem c5_fanout_isolation_witness :
    dlookup 5 fanout_ws.room_memberships = some [1, 2, 3] ∧
    (1, 10, OutMsg.new_message 5 1) ∈
      (broadcast_to_room (fun sock => sock == 20) fanout_ws 5 (OutMsg.new_message 5 1) none).2 ∧
    is_user_online
      (broadcast_to_room (fun sock => sock == 20) fanout_ws 5 (OutMsg.new_message 5 1) none).1
      2 = false :=
  ⟨by decide,
   (c5_fanout_isolation (fun sock => sock == 20) fanout_ws 5 (OutMsg.new_message 5 1)
      [1, 2, 3] 1 10 (by decide) (by decide) (by decide)).1 (by decide),
   (c5_fanout_isolation (fun sock => sock == 20) fanout_ws 5 (OutMsg.new_message 5 1)
      [1, 2, 3] 2 20 (by decide) (by decide) (by decide)).2 (by decide)⟩

/-! ### C2: at-most-one session per user -/

theorem connect_conn_self {fails : ℕ → Bool} (db : DB) (st : WSState) {u s : ℕ}
    (hf : fails s = false) :
    (connect fails db st u s).2.1.active_connections u = some s := by
  unfold connect
  apply foldl_preserve (P := fun acc : HandlerAcc => acc.2.1.active_connections u = some s)
  · intro a rid ha
    exact join_room_conn_some a.1 u rid ha hf
  · simp

theorem connect_closed (fails : ℕ → Bool) (db : DB) (st : WSState) (u s : ℕ) :
    (connect fails db st u s).2.1.closed_sockets = st.closed_sockets := by
  unfold connect
  apply foldl_preserve
    (P := fun acc : HandlerAcc => acc.2.1.closed_sockets = st.closed_sockets)
  · intro a rid ha
    rw [← ha]
    exact join_room_closed _ _ _ _ _
  · rfl

/-- C2 counterexample: user 1 binds session 7 and then session 8; the
manager never asks the transport to close the superseded session 7
(`connect` merely overwrites `active_connections[user_id]`), so session 7
is not in the set of manager-closed sockets — the claim says the old
session has been closed. -/
theorem c2_counterexample :
    (7 : ℕ) ∉ (connect (fun _ => false)
        (connect (fun _ => false) init_db init_ws 1 7).1
        (connect (fun _ => false) init_db init_ws 1 7).2.1 1 8).2.1.closed_sockets := by
  decide

/-- C2 (amended): after `bind(u, s2)` following `bind(u, s1)`, the
registry binds `u` to `s2` alone (the connection dict holds at most one
socket per user id), `isOnline u` is true, and a subsequent send to `u`
is delivered to `s2` only; the superseded `s1` is dropped from the
registry but never closed by the manager. -/
theorem c2_session_supersede (fails : ℕ → Bool) (db : DB) (st : WSState)
    (u s1 s2 : ℕ) (msg : OutMsg) (hf : fails s2 = false) :
    (connect fails (connect fails db st u s1).1
        (connect fails db st u s1).2.1 u s2).2.1.active_connections u = some s2 ∧
    is_user_online (connect fails (connect fails db st u s1).1
        (connect fails db st u s1).2.1 u s2).2.1 u = true ∧
    send_to_user fails (connect fails (connect fails db st u s1).1
        (connect fails db st u s1).2.1 u s2).2.1 u msg =
      ((connect fails (connect fails db st u s1).1
        (connect fails db st u s1).2.1 u s2).2.1, [(u, s2, msg)]) ∧
    (connect fails (connect fails db st u s1).1
        (connect fails db st u s1).2.1 u s2).2.1.closed_sockets = st.closed_sockets := by
  have h1 : (connect fails (connect fails db st u s1).1
      (connect fails db st u s1).2.1 u s2).2.1.active_connections u = some s2 :=
    connect_conn_self _ _ hf
  refine ⟨h1, ?_, ?_, ?_⟩
  · unfold is_user_online
    rw [h1]
    rfl
  · exact send_to_user_deliver msg h1 hf
  · rw [connect_closed, connect_closed]

/-- C2 witness: the amended claim at user 1, sessions 7 then 8, with a
transport that never fails. -/
theorem c2_session_supersede_witness :
    ((fun _ => false) : ℕ → Bool) 8 = false ∧
    ((connect (fun _ => false) (connect (fun _ => false) init_db init_ws 1 7).1
        (connect (fun _ => false) init_db init_ws 1 7).2.1 1 8).2.1.active_connections 1 =
      some 8 ∧
     is_user_online (connect (fun _ => false) (connect (fun _ => false) init_db init_ws 1 7).1
        (connect (fun _ => false) init_db init_ws 1 7).2.1 1 8).2.1 1 = true ∧
     send_to_user (fun _ => false) (connect (fun _ => false)
        (connect (fun _ => false) init_db init_ws 1 7).1
        (connect (fun _ => false) init_db init_ws 1 7).2.1 1 8).2.1 1 OutMsg.pong =
      ((connect (fun _ => false) (connect (fun _ => false) init_db init_ws 1 7).1
        (connect (fun _ => false) init_db init_ws 1 7).2.1 1 8).2.1, [(1, 8, OutMsg.pong)]) ∧
     (connect (fun _ => false) (connect (fun _ => false) init_db init_ws 1 7).1
        (connect (fun _ => false) init_db init_ws 1 7).2.1 1 8).2.1.closed_sockets =
      init_ws.closed_sockets) :=
  ⟨rfl, c2_session_supersede (fun _ => false) init_db init_ws 1 7 8 OutMsg.pong rfl⟩

/-! ### C3: capacity enforcement -/

/-- C3: a join request for an active room of capacity 2 that already has
two active members is rejected with the at-capacity error, and neither
the database nor the in-memory state is mutated by the rejected attempt
(the capacity check runs before any membership mutation, and before the
boundary check — the result is independent of the supplied location). -/
theorem c3_capacity_enforcement (within : ℚ × ℚ → Room → Bool) (fails : ℕ → Bool)
    (db : DB) (st : WSState) (u s rid : ℕ) (room : Room) (loc : Option (ℚ × ℚ))
    (hrid : rid ≠ 0)
    (hroom : db_get_active_room db rid = some room)
    (hcap : room.max_users = 2)
    (hcount : db_active_member_count db rid = 2)
    (hconn : st.active_connections u = some s)
    (hok : fails s = false) :
    handle_join_room within fails db st u (some rid) loc =
      (db, st, [(u, s, OutMsg.error "Room is at maximum capacity")]) := by
  have hle : room.max_users ≤ db_active_member_count db rid := by
    rw [hcap, hcount]
  simp only [handle_join_room, hroom]
  rw [if_neg hrid, if_pos hle, send_to_user_deliver _ hconn hok]

/-- Database with one active room of capacity 2 (id 1) and two active
membership rows in it (users 2 and 3). -/
def full_room_db : DB :=
  { rooms := [⟨1, true, 2, 0, 0, 50⟩]
    memberships := [⟨1, 2, true⟩, ⟨1, 3, true⟩] }

/-- Manager state matching `full_room_db`: users 2 and 3 occupy room 1,
and user 4 (the would-be third joiner) is connected on socket 9. -/
def full_room_ws : WSState :=
  { active_connections := fun v =>
      if v = 2 then some 7 else if v = 3 then some 8 else if v = 4 then some 9 else none
    room_memberships := [(1, [2, 3])]
    user_locations := fun _ => none
    closed_sockets := [] }

/-- C3 witness: user 4's join of the full room 1 is rejected with the
at-capacity error and the state is returned unchanged. -/
theorem c3_capacity_enforcement_witness :
    db_get_active_room full_room_db 1 = some ⟨1, true, 2, 0, 0, 50⟩ ∧
    db_active_member_count full_room_db 1 = 2 ∧
    handle_join_room (fun _ _ => true) (fun _ => false) full_room_db full_room_ws
        4 (some 1) none =
      (full_room_db, full_room_ws, [(4, 9, OutMsg.error "Room is at maximum capacity")]) :=
  ⟨by decide, by decide,
   c3_capacity_enforcement (fun _ _ => true) (fun _ => false) full_room_db full_room_ws
     4 9 1 ⟨1, true, 2, 0, 0, 50⟩ none (by decide) (by decide) (by decide) (by decide)
     (by decide) (by decide)⟩

/-! ### C8: duplicate join -/

theorem mem_add_of_mem {ms : List (ℕ × List ℕ)} (hnd : keys_nodup ms) {rid uid : ℕ}
    (hm : uid ∈ membersOf ms rid) : mem_add ms rid uid = ms := by
  unfold mem_add
  cases h : dlookup rid ms with
  | none => simp [membersOf, h] at hm
  | some l =>
      have hl : uid ∈ l := by simpa [membersOf, h] using hm
      have hid : ∀ p ∈ ms,
          (if p.1 = rid then (p.1, if uid ∈ p.2 then p.2 else p.2 ++ [uid]) else p) = p := by
        intro p hp
        by_cases hpr : p.1 = rid
        · have hlk : dlookup rid ms = some p.2 := hpr ▸ dlookup_of_mem hnd hp
          rw [h] at hlk
          have hpl : l = p.2 := by injection hlk
          rw [if_pos hpr, if_pos (hpl ▸ hl)]
        · rw [if_neg hpr]
      rw [List.map_congr_left hid]
      exact List.map_id ms

theorem join_room_deliver_self {fails : ℕ → Bool} {st : WSState} {u s : ℕ}
    (db : DB) (rid : ℕ) (room' : Room) (hr : db_get_room db rid = some room')
    (h : st.active_connections u = some s) (hf : fails s = false) :
    (u, s, OutMsg.room_joined rid) ∈ (join_room fails db st u rid).2 := by
  unfold join_room
  simp only [hr]
  have h1 : ({ st with room_memberships := mem_add st.room_memberships rid u } :
      WSState).active_connections u = some s := h
  rw [send_to_user_deliver _ h1 hf]
  simp

/-- C8 counterexample: user 2 is already an active member of room 1, which
is at capacity 2; a repeated join request is answered with the
at-capacity error (the capacity check of `_handle_join_room` runs before
the already-member check), not with an informative non-error result. -/
theorem c8_counterexample :
    (handle_join_room (fun _ _ => true) (fun _ => false) full_room_db
        { active_connections := fun v => if v = 2 then some 7 else none
          room_memberships := [(1, [2, 3])]
          user_locations := fun _ => none
          closed_sockets := [] }
        2 (some 1) none).2.2 =
      [(2, 7, OutMsg.error "Room is at maximum capacity")] := by
  decide

/-- C8 (amended): a repeated join by a user who is already an active
member of a room is a no-op on membership state with an informative
result, not an error, provided the admission checks that run first
succeed — in particular the active occupant count (which includes the
user) must still be below capacity.  Then no second membership row is
created, the in-memory occupant sets are unchanged, the user is sent
`room_joined` again, and no error event is emitted. -/
theorem c8_duplicate_join (within : ℚ × ℚ → Room → Bool) (fails : ℕ → Bool)
    (db : DB) (st : WSState) (u s rid : ℕ) (room room' : Room)
    (hrid : rid ≠ 0)
    (hroom : db_get_active_room db rid = some room)
    (hroom2 : db_get_room db rid = some room')
    (hcap : db_active_member_count db rid < room.max_users)
    (hexist : (db_find_active_membership db rid u).isSome = true)
    (hnd : keys_nodup st.room_memberships)
    (hmem : u ∈ membersOf st.room_memberships rid)
    (hconn : st.active_connections u = some s)
    (hok : fails s = false) :
    (handle_join_room within fails db st u (some rid) none).1 = db ∧
    (handle_join_room within fails db st u (some rid) none).2.1.room_memberships =
      st.room_memberships ∧
    (u, s, OutMsg.room_joined rid) ∈ (handle_join_room within fails db st u (some rid) none).2.2 ∧
    ∀ d ∈ (handle_join_room within fails db st u (some rid) none).2.2,
      ∀ t, d.2.2 ≠ OutMsg.error t := by
  have hle : ¬ room.max_users ≤ db_active_member_count db rid := not_le.mpr hcap
  have hred : handle_join_room within fails db st u (some rid) none =
      (db, (join_room fails db st u rid).1, (join_room fails db st u rid).2) := by
    simp only [handle_join_room, hroom]
    rw [if_neg hrid, if_neg hle]
    simp only [Option.any_none, Bool.false_eq_true, if_false, if_pos hexist]
  rw [hred]
  refine ⟨rfl, ?_, ?_, ?_⟩
  · rw [join_room_rooms]
    exact mem_add_of_mem hnd hmem
  · exact join_room_deliver_self db rid room' hroom2 hconn hok
  · intro d hd t
    rcases join_room_shape d hd with hsh | hsh | hsh <;> simp [hsh]

/-- Database with one active room of capacity 3 (id 1) and two active
membership rows in it (users 1 and 2). -/
def spare_room_db : DB :=
  { rooms := [⟨1, true, 3, 0, 0, 50⟩]
    memberships := [⟨1, 1, true⟩, ⟨1, 2, true⟩] }

/-- Manager state matching `spare_room_db`, user 1 connected on socket 5. -/
def spare_room_ws : WSState :=
  { active_connections := fun v => if v = 1 then some 5 else if v = 2 then some 6 else none
    room_memberships := [(1, [1, 2])]
    user_locations := fun _ => none
    closed_sockets := [] }

/-- C8 witness: user 1 repeats the join of room 1 (capacity 3, occupancy
2): the database rows and the occupant sets are unchanged and the user is
sent `room_joined` again. -/
theorem c8_duplicate_join_witness :
    (db_find_active_membership spare_room_db 1 1).isSome = true ∧
    ((handle_join_room (fun _ _ => true) (fun _ => false) spare_room_db spare_room_ws
        1 (some 1) none).1 = spare_room_db ∧
     (handle_join_room (fun _ _ => true) (fun _ => false) spare_room_db spare_room_ws
        1 (some 1) none).2.1.room_memberships = spare_room_ws.room_memberships ∧
     (1, 5, OutMsg.room_joined 1) ∈
       (handle_join_room (fun _ _ => true) (fun _ => false) spare_room_db spare_room_ws
         1 (some 1) none).2.2) :=
  ⟨by decide,
   (c8_duplicate_join (fun _ _ => true) (fun _ => false) spare_room_db spare_room_ws
      1 5 1 ⟨1, true, 3, 0, 0, 50⟩ ⟨1, true, 3, 0, 0, 50⟩ (by decide) (by decide) (by decide)
      (by decide) (by decide) (by unfold keys_nodup; decide) (by decide) (by decide) (by decide)).1,
   (c8_duplicate_join (fun _ _ => true) (fun _ => false) spare_room_db spare_room_ws
      1 5 1 ⟨1, true, 3, 0, 0, 50⟩ ⟨1, true, 3, 0, 0, 50⟩ (by decide) (by decide) (by decide)
      (by decide) (by decide) (by unfold keys_nodup; decide) (by decide) (by decide) (by decide)).2.1,
   (c8_duplicate_join (fun _ _ => true) (fun _ => false) spare_room_db spare_room_ws
      1 5 1 ⟨1, true, 3, 0, 0, 50⟩ ⟨1, true, 3, 0, 0, 50⟩ (by decide) (by decide) (by decide)
      (by decide) (by decide) (by unfold keys_nodup; decide) (by decide) (by decide) (by decide)).2.2.1⟩

/-! ### C1: proximity notification on location updates

The proximity path reachable from a `location_update` frame is
`WebSocketManager._check_proximity`; the edge-triggered
`LocationService._check_user_proximity` embedded above is never invoked
by the repository (`location_service` is only initialized and cleaned up
in `main.py`). -/

theorem check_proximity_outside {dist : ℚ × ℚ → ℚ × ℚ → ℚ} {fails : ℕ → Bool}
    {st : WSState} {u f : ℕ} {loc floc : ℚ × ℚ}
    (h1 : ¬ (loc.1 = 0 ∨ loc.2 = 0)) (hd : ¬ dist loc floc ≤ ws_proximity_threshold) :
    check_proximity dist fails st u loc [(f, floc)] = (st, []) := by
  unfold check_proximity
  rw [if_neg h1]
  simp only [List.foldl]
  rw [if_neg hd]

theorem check_proximity_within {dist : ℚ × ℚ → ℚ × ℚ → ℚ} {fails : ℕ → Bool}
    {st : WSState} {u f s : ℕ} {loc floc : ℚ × ℚ}
    (h1 : ¬ (loc.1 = 0 ∨ loc.2 = 0)) (hd : dist loc floc ≤ ws_proximity_threshold)
    (hconn : st.active_connections u = some s) (hok : fails s = false) :
    check_proximity dist fails st u loc [(f, floc)] =
      (st, [(u, s, OutMsg.friend_nearby f)]) := by
  unfold check_proximity
  rw [if_neg h1]
  simp only [List.foldl]
  rw [if_pos hd, send_to_user_deliver _ hconn hok]
  simp

/-- C1 counterexample: running the claim's scenario through the proximity
path invoked on `location_update` (`WebSocketManager._check_proximity`,
here with the distance oracle reporting the first coordinate in meters):
after the 150 m and 50 m updates, the 60 m steady-state update produces a
further `friend_nearby` notification — the claim says no further event —
and the 120 m update produces no event at all — the claim says exactly
one `exited` event.  The path is level-triggered and has no exited
notion. -/
theorem c1_counterexample :
    (check_proximity (fun p _ => p.1 / 1000) (fun _ => false)
      (check_proximity (fun p _ => p.1 / 1000) (fun _ => false)
        (check_proximity (fun p _ => p.1 / 1000) (fun _ => false) proximity_ws
          1 (150, 1) [(2, (0, 1))]).1
        1 (50, 1) [(2, (0, 1))]).1
      1 (60, 1) [(2, (0, 1))]).2 = [(1, 4, OutMsg.friend_nearby 2)] ∧
    (check_proximity (fun p _ => p.1 / 1000) (fun _ => false)
      (check_proximity (fun p _ => p.1 / 1000) (fun _ => false)
        (check_proximity (fun p _ => p.1 / 1000) (fun _ => false)
          (check_proximity (fun p _ => p.1 / 1000) (fun _ => false) proximity_ws
            1 (150, 1) [(2, (0, 1))]).1
          1 (50, 1) [(2, (0, 1))]).1
        1 (60, 1) [(2, (0, 1))]).1
      1 (120, 1) [(2, (0, 1))]).2 = [] := by
  have hconn : proximity_ws.active_connections 1 = some 4 := rfl
  have h150 : check_proximity (fun p _ => p.1 / 1000) (fun _ => false) proximity_ws
      1 (150, 1) [(2, (0, 1))] = (proximity_ws, []) :=
    check_proximity_outside (by norm_num) (by norm_num [ws_proximity_threshold])
  have h50 : check_proximity (fun p _ => p.1 / 1000) (fun _ => false) proximity_ws
      1 (50, 1) [(2, (0, 1))] = (proximity_ws, [(1, 4, OutMsg.friend_nearby 2)]) :=
    check_proximity_within (by norm_num) (by norm_num [ws_proximity_threshold]) hconn rfl
  have h60 : check_proximity (fun p _ => p.1 / 1000) (fun _ => false) proximity_ws
      1 (60, 1) [(2, (0, 1))] = (proximity_ws, [(1, 4, OutMsg.friend_nearby 2)]) :=
    check_proximity_within (by norm_num) (by norm_num [ws_proximity_threshold]) hconn rfl
  have h120 : check_proximity (fun p _ => p.1 / 1000) (fun _ => false) proximity_ws
      1 (120, 1) [(2, (0, 1))] = (proximity_ws, []) :=
    check_proximity_outside (by norm_num) (by norm_num [ws_proximity_threshold])
  simp [h150, h50, h60, h120]

/-- C1 (amended): the proximity notification produced on a location
update is level-triggered, not edge-triggered: for any two users with
mutual location visibility, every update whose recomputed distance is
within the 100 m (0.1 km) threshold sends the updating user exactly one
`friend_nearby` notification, and every update outside the threshold
sends nothing.  In the claim's scenario — distances 150 m, 50 m, 60 m,
120 m, reported by the distance oracle as the moving user's first
coordinate in meters — this yields no event, one notification, a further
notification at the 60 m steady state, and no event (no `exited` event
exists on this path).  The edge-triggered `entered`/`exited` behaviour
of the claim lives only in `LocationService._check_user_proximity`,
which the repository never calls. -/
theorem c1_level_triggered_proximity (fails : ℕ → Bool) (st : WSState) (u f s : ℕ)
    (_hne : u ≠ f) (hconn : st.active_connections u = some s) (hok : fails s = false) :
    (check_proximity (fun p _ => p.1 / 1000) fails st u (150, 1) [(f, (0, 1))]).2 = [] ∧
    (check_proximity (fun p _ => p.1 / 1000) fails
      (check_proximity (fun p _ => p.1 / 1000) fails st u (150, 1) [(f, (0, 1))]).1
      u (50, 1) [(f, (0, 1))]).2 = [(u, s, OutMsg.friend_nearby f)] ∧
    (check_proximity (fun p _ => p.1 / 1000) fails
      (check_proximity (fun p _ => p.1 / 1000) fails
        (check_proximity (fun p _ => p.1 / 1000) fails st u (150, 1) [(f, (0, 1))]).1
        u (50, 1) [(f, (0, 1))]).1
      u (60, 1) [(f, (0, 1))]).2 = [(u, s, OutMsg.friend_nearby f)] ∧
    (check_proximity (fun p _ => p.1 / 1000) fails
      (check_proximity (fun p _ => p.1 / 1000) fails
        (check_proximity (fun p _ => p.1 / 1000) fails
          (check_proximity (fun p _ => p.1 / 1000) fails st u (150, 1) [(f, (0, 1))]).1
          u (50, 1) [(f, (0, 1))]).1
        u (60, 1) [(f, (0, 1))]).1
      u (120, 1) [(f, (0, 1))]).2 = [] := by
  have h150 : check_proximity (fun p _ => p.1 / 1000) fails st u (150, 1) [(f, (0, 1))] =
      (st, []) :=
    check_proximity_outside (by norm_num) (by norm_num [ws_proximity_threshold])
  have h50 : check_proximity (fun p _ => p.1 / 1000) fails st u (50, 1) [(f, (0, 1))] =
      (st, [(u, s, OutMsg.friend_nearby f)]) :=
    check_proximity_within (by norm_num) (by norm_num [ws_proximity_threshold]) hconn hok
  have h60 : check_proximity (fun p _ => p.1 / 1000) fails st u (60, 1) [(f, (0, 1))] =
      (st, [(u, s, OutMsg.friend_nearby f)]) :=
    check_proximity_within (by norm_num) (by norm_num [ws_proximity_threshold]) hconn hok
  have h120 : check_proximity (fun p _ => p.1 / 1000) fails st u (120, 1) [(f, (0, 1))] =
      (st, []) :=
    check_proximity_outside (by norm_num) (by norm_num [ws_proximity_threshold])
  simp [h150, h50, h60, h120]

/-- C1 witness: the amended claim at users 1 and 2, socket 4, with a
transport that never fails. -/
theorem c1_level_triggered_proximity_witness :
    ((1 : ℕ) ≠ 2 ∧ proximity_ws.active_connections 1 = some 4) ∧
    ((check_proximity (fun p _ => p.1 / 1000) (fun _ => false) proximity_ws
        1 (150, 1) [(2, (0, 1))]).2 = [] ∧
     (check_proximity (fun p _ => p.1 / 1000) (fun _ => false)
       (check_proximity (fun p _ => p.1 / 1000) (fun _ => false) proximity_ws
         1 (150, 1) [(2, (0, 1))]).1
       1 (50, 1) [(2, (0, 1))]).2 = [(1, 4, OutMsg.friend_nearby 2)] ∧
     (check_proximity (fun p _ => p.1 / 1000) (fun _ => false)
       (check_proximity (fun p _ => p.1 / 1000) (fun _ => false)
         (check_proximity (fun p _ => p.1 / 1000) (fun _ => false) proximity_ws
           1 (150, 1) [(2, (0, 1))]).1
         1 (50, 1) [(2, (0, 1))]).1
       1 (60, 1) [(2, (0, 1))]).2 = [(1, 4, OutMsg.friend_nearby 2)] ∧
     (check_proximity (fun p _ => p.1 / 1000) (fun _ => false)
       (check_proximity (fun p _ => p.1 / 1000) (fun _ => false)
         (check_proximity (fun p _ => p.1 / 1000) (fun _ => false)
           (check_proximity (fun p _ => p.1 / 1000) (fun _ => false) proximity_ws
             1 (150, 1) [(2, (0, 1))]).1
           1 (50, 1) [(2, (0, 1))]).1
         1 (60, 1) [(2, (0, 1))]).1
       1 (120, 1) [(2, (0, 1))]).2 = []) :=
  ⟨⟨by decide, rfl⟩,
   c1_level_triggered_proximity (fun _ => false) proximity_ws 1 2 4 (by decide) rfl rfl⟩

end Zayion
